import Mathlib

/-!
# Verification of the ProductiveMining python backend core

Shallow embedding of the computation-routing, valuation, and mining-lifecycle
pipeline of the `python_backend` package, together with proofs of the spec's
testable properties.  Python floats are modelled as rationals (the formulas
involved — sums, products, `min`/`max` clamps and decimal rounding — are exact
at every input the claims quantify over), Python ints as `ℤ`/`ℕ`, dictionaries
with `.get` defaults as total lookup functions, and exceptions as `Except`.
-/

namespace ProductiveMining

/-! ## Scientific valuation engine (`scientific_valuation.py`) -/

/-- Python's `round(x, 2)`: round to two decimal places.  (Python uses
round-half-to-even, Mathlib's `round` is round-half-up; they differ only at
exact half-cent ties, which never affects the interval bounds proved here.) -/
def round2 (q : ℚ) : ℚ := (round (q * 100) : ℚ) / 100

/-- Python's `round(x, 3)`: round to three decimal places. -/
def round3 (q : ℚ) : ℚ := (round (q * 1000) : ℚ) / 1000

/-- `self.base_research_values` dictionary; `.get(work_type, 600)` is the
access pattern, so the default is part of the lookup. -/
def base_research_values (work_type : String) : ℚ :=
  if work_type = "riemann_zero" then 800
  else if work_type = "prime_pattern" then 600
  else if work_type = "yang_mills" then 1200
  else if work_type = "navier_stokes" then 900
  else if work_type = "goldbach_verification" then 500
  else if work_type = "birch_swinnerton_dyer" then 700
  else if work_type = "elliptic_curve_crypto" then 800
  else if work_type = "lattice_crypto" then 750
  else if work_type = "poincare_conjecture" then 1000
  else 600

/-- `self.research_impact_factors` dictionary with `.get(work_type, 150)`. -/
def research_impact_factors (work_type : String) : ℚ :=
  if work_type = "yang_mills" then 300
  else if work_type = "riemann_zero" then 200
  else if work_type = "poincare_conjecture" then 250
  else if work_type = "prime_pattern" then 150
  else if work_type = "navier_stokes" then 180
  else if work_type = "goldbach_verification" then 100
  else if work_type = "birch_swinnerton_dyer" then 160
  else if work_type = "elliptic_curve_crypto" then 170
  else if work_type = "lattice_crypto" then 140
  else 150

/-- `self.max_difficulty_multiplier = 1.5`. -/
def max_difficulty_multiplier : ℚ := 3 / 2

/-- `ScientificValuationEngine._calculate_computational_cost`. -/
def calculate_computational_cost (computation_time energy_consumed : ℚ) : ℚ :=
  let computation_cost := (computation_time / 3600) * (1 / 10)
  let energy_cost := energy_consumed * (15 / 100)
  let total_cost := computation_cost + energy_cost
  min (total_cost * 100) 200

/-- The dictionary returned by `calculate_scientific_value` (numeric fields;
the `methodology` string and `value_bounds` are constants we omit from the
record but nothing in the claims mentions them). -/
structure Valuation where
  base_value : ℚ
  computational_cost : ℚ
  research_impact : ℚ
  total_value : ℚ
  difficulty_multiplier : ℚ
  deriving Repr, DecidableEq

/-- `ScientificValuationEngine.calculate_scientific_value`.  The Python body
is wrapped in `try/except`, but every operation in it (dict lookups with
defaults, rational arithmetic, `min`/`max`, `round`) is total, so the
embedding is the `try` branch as a total function: the function always
returns and never raises. -/
def calculate_scientific_value (work_type : String) (difficulty : ℤ)
    (computation_time energy_consumed : ℚ) : Valuation :=
  let base_value := base_research_values work_type
  let research_impact := research_impact_factors work_type
  let computational_cost := calculate_computational_cost computation_time energy_consumed
  let difficulty_multiplier :=
    min (1 + ((difficulty : ℚ) / 1000) * (1 / 2)) max_difficulty_multiplier
  let total_value := base_value + research_impact * difficulty_multiplier + computational_cost
  let total_value := max 1200 (min total_value 3500)
  { base_value := round2 base_value
    computational_cost := round2 computational_cost
    research_impact := round2 (research_impact * difficulty_multiplier)
    total_value := round2 total_value
    difficulty_multiplier := round3 difficulty_multiplier }

/-! ## Hybrid router (`hybrid_mathematical_system.py`) -/

/-- `self.real_computation_types` — the dictionary is only ever used for
`in`-membership tests, so the set of keys is what matters. -/
def real_computation_types : List String :=
  ["goldbach_verification", "prime_gap_analysis", "fibonacci_patterns",
   "collatz_verification"]

/-- `self.tractability_thresholds` with `.get(work_type, 0)`. -/
def tractability_thresholds (work_type : String) : ℤ :=
  if work_type = "goldbach_verification" then 200
  else if work_type = "prime_gap_analysis" then 150
  else if work_type = "fibonacci_patterns" then 300
  else if work_type = "collatz_verification" then 100
  else 0

/-- `HybridMathematicalSystem.determine_computation_mode`. -/
def determine_computation_mode (work_type : String) (difficulty : ℤ) : String :=
  if work_type ∉ real_computation_types then "simulation"
  else if difficulty > tractability_thresholds work_type then "simulation"
  else "real"

/-! ## Verification scoring (`_compare_real_results`, `_compare_statistical_results`)

The result envelopes are dictionaries; the comparison functions read
`result.get('computationResult', {}).get(<metric>, 0)` and
`result.get('computationTime', 1.0)` / `result.get('energyConsumed', 0.1)`.
We model an envelope by the fields these functions read; the claims
quantify over engine-produced results, where all of these keys are present. -/

structure ResultEnvelope where
  workType : String
  successRate : ℚ
  averageGap : ℚ
  goldenRatioApproximation : ℚ
  convergenceRate : ℚ
  computationTime : ℚ
  energyConsumed : ℚ
  deriving Repr, DecidableEq

/-- `HybridMathematicalSystem._compare_real_results`. -/
def compare_real_results (result1 result2 : ResultEnvelope) : ℚ :=
  if result1.workType = "goldbach_verification" then
    1 - |result1.successRate - result2.successRate|
  else if result1.workType = "prime_gap_analysis" then
    if max result1.averageGap result2.averageGap > 0 then
      1 - |result1.averageGap - result2.averageGap| /
            max result1.averageGap result2.averageGap
    else 1
  else if result1.workType = "fibonacci_patterns" then
    if max result1.goldenRatioApproximation result2.goldenRatioApproximation > 0 then
      1 - |result1.goldenRatioApproximation - result2.goldenRatioApproximation| /
            max result1.goldenRatioApproximation result2.goldenRatioApproximation
    else 1
  else if result1.workType = "collatz_verification" then
    1 - |result1.convergenceRate - result2.convergenceRate|
  else (1 : ℚ) / 2

/-- `HybridMathematicalSystem._compare_statistical_results`. -/
def compare_statistical_results (result1 result2 : ResultEnvelope) : ℚ :=
  let time1 := result1.computationTime
  let time2 := result2.computationTime
  let energy1 := result1.energyConsumed
  let energy2 := result2.energyConsumed
  let time_similarity := 1 - min (|time1 - time2| / max time1 time2) 1
  let energy_similarity := 1 - min (|energy1 - energy2| / max energy1 energy2) 1
  (time_similarity + energy_similarity) / 2

/-! ## Real Collatz engine (`real_mathematical_engines.py`) -/

/-- One iteration of the Collatz body: `current // 2` when even,
`3 * current + 1` when odd. -/
def collatz_step (current : ℕ) : ℕ :=
  if current % 2 = 0 then current / 2 else 3 * current + 1

/-- The `while current != 1 and steps < 10000` loop of
`compute_collatz_verification_real`, returning the final
`(current, steps, max_in_sequence)`. -/
def collatz_loop (current steps max_in_sequence : ℕ) : ℕ × ℕ × ℕ :=
  if current ≠ 1 ∧ steps < 10000 then
    let next := collatz_step current
    collatz_loop next (steps + 1) (max max_in_sequence next)
  else (current, steps, max_in_sequence)
  termination_by 10000 - steps
  decreasing_by omega

/-- One entry of `collatz_results`. -/
structure CollatzTrial where
  startValue : ℕ
  steps : ℕ
  maxValue : ℕ
  converged : Bool
  deriving Repr, DecidableEq

/-- One iteration of the per-start-value trial in
`compute_collatz_verification_real` (`converged = current == 1` after the
walk). -/
def collatz_trial (start : ℕ) : CollatzTrial :=
  let r := collatz_loop start 0 start
  { startValue := start, steps := r.2.1, maxValue := r.2.2,
    converged := r.1 == 1 }

/-! ## Producer backoff (`mining_operations.py` error branches)

The `except` branch of `_autonomous_miner` / `_specialized_autonomous_miner`
increments the per-loop `consecutive_errors` counter, then either sleeps a
fixed reset interval and zeroes the counter (at the `max_consecutive_errors`
threshold of 5) or sleeps an exponential backoff.  We model the branch as a
function from the pre-error counter value to `(sleep seconds, new counter)`. -/

/-- The general miner's backoff delay for (updated) error count `k`:
`min(30 * (2 ** k), 300)`. -/
def autonomous_miner_backoff (k : ℕ) : ℕ := min (30 * 2 ^ k) 300

/-- The specialized miner's backoff delay: `min(45 * (2 ** k), 400)`. -/
def specialized_miner_backoff (k : ℕ) : ℕ := min (45 * 2 ^ k) 400

/-- The `except` branch of `_autonomous_miner`. -/
def autonomous_miner_error_step (consecutive_errors : ℕ) : ℕ × ℕ :=
  let k := consecutive_errors + 1
  if k ≥ 5 then (60, 0) else (autonomous_miner_backoff k, k)

/-- The `except` branch of `_specialized_autonomous_miner`. -/
def specialized_miner_error_step (consecutive_errors : ℕ) : ℕ × ℕ :=
  let k := consecutive_errors + 1
  if k ≥ 5 then (90, 0) else (specialized_miner_backoff k, k)

/-! ## Engine result envelopes and the hybrid compute router

`math_engines.compute_mathematical_work` / `real_engine.compute_real_mathematics`
return dictionaries; the hybrid router and the mining manager read
`computationTime`, `energyConsumed` and `signature` from them (with `.get`
defaults in the router).  The opaque `computationResult` / `verificationData`
payloads are carried through untouched, so we omit them from the record.
Engine behaviour itself is runtime-dependent (randomness, wall-clock timing),
so the engines are parameters of the router model. -/

structure EngineOutput where
  computationTime : Option ℚ
  energyConsumed : Option ℚ
  signature : String
  deriving Repr, DecidableEq

/-- The `hybridSystem` metadata dictionary attached on the successful path of
`compute_mathematical_work` (the constant version string and wall-clock
timestamp omitted). -/
structure HybridMeta where
  computationMode : String
  realComputationAvailable : Bool
  tractabilityThreshold : ℤ
  deriving Repr, DecidableEq

/-- The result envelope returned by
`HybridMathematicalSystem.compute_mathematical_work`: the engine payload plus
the keys the router writes.  Keys that a given path does not write are
`none` (Python: absent from the dict). -/
structure HybridEnvelope where
  result : EngineOutput
  computationMode : String
  verified : Option Bool
  scientificValue : Option Valuation
  error : Option String
  hybridSystem : Option HybridMeta
  deriving Repr, DecidableEq

/-- `HybridMathematicalSystem.compute_mathematical_work`, with the two engines
as `Except`-valued parameters (an `.error` is a raised exception).  The `try`
block covers both branches and the metadata attachment; the `except` block
reruns the simulation engine and returns its result tagged
`simulation_fallback` with the error recorded (no valuation, no metadata). -/
def compute_mathematical_work_hybrid
    (real_engine simulation_engine : String → ℤ → Except String EngineOutput)
    (work_type : String) (difficulty : ℤ) : Except String HybridEnvelope :=
  let computation_mode := determine_computation_mode work_type difficulty
  let attempt : Except String HybridEnvelope :=
    if computation_mode = "real" then
      match real_engine work_type difficulty with
      | .error e => .error e
      | .ok r =>
          let scientific_value := calculate_scientific_value work_type difficulty
            (r.computationTime.getD 1) (r.energyConsumed.getD (1 / 10))
          .ok { result := r, computationMode := "real", verified := some true,
                scientificValue := some scientific_value, error := none,
                hybridSystem := none }
    else
      match simulation_engine work_type difficulty with
      | .error e => .error e
      | .ok r =>
          let scientific_value := calculate_scientific_value work_type difficulty
            (r.computationTime.getD 1) (r.energyConsumed.getD (1 / 10))
          .ok { result := r, computationMode := "simulation", verified := some false,
                scientificValue := some scientific_value, error := none,
                hybridSystem := none }
  match attempt with
  | .ok env =>
      let meta : HybridMeta :=
        { computationMode := computation_mode,
          realComputationAvailable := decide (work_type ∈ real_computation_types),
          tractabilityThreshold := tractability_thresholds work_type }
      .ok { env with hybridSystem := some meta }
  | .error e =>
      match simulation_engine work_type difficulty with
      | .error e2 => .error e2
      | .ok r =>
          .ok { result := r, computationMode := "simulation_fallback",
                verified := none, scientificValue := none, error := some e,
                hybridSystem := none }

/-! ## Blocks and chain linkage (`database.create_block`,
`mining_operations._create_block_with_discovery`) -/

/-- A row of the `blocks` table (the `id` serial and timestamp omitted). -/
structure Block where
  index : ℤ
  previous_hash : String
  merkle_root : String
  block_hash : String
  difficulty : ℤ
  nonce : ℤ
  total_scientific_value : ℚ
  miner_id : String
  energy_consumed : ℚ
  knowledge_created : ℤ
  deriving Repr, DecidableEq

/-- A row of the `mathematical_work` table (opaque `result` /
`verification_data` JSON payloads omitted). -/
structure MathematicalWork where
  id : ℤ
  work_type : String
  difficulty : ℤ
  computational_cost : ℚ
  energy_efficiency : ℚ
  scientific_value : ℚ
  worker_id : String
  signature : String
  deriving Repr, DecidableEq

/-- `"0" * 64` — the previous hash of a genesis block. -/
def zeros64 : String := String.mk (List.replicate 64 '0')

/-- `DatabaseManager.create_block`'s construction of the row it inserts.
`py_hash` models Python's builtin `hash` (process-seeded) and `sha256_hex`
models `hashlib.sha256(...).hexdigest()`; both enter only the derived
`nonce` / `block_hash` fields, so they are parameters. -/
def create_block (py_hash : String → ℤ) (sha256_hex : String → String)
    (index : ℤ) (previous_hash merkle_root : String) (difficulty : ℤ)
    (total_scientific_value : ℚ) (miner_id : String) (energy_consumed : ℚ)
    (knowledge_created : ℤ) : Block :=
  let nonce := py_hash (toString index ++ previous_hash ++ merkle_root) % 1000000
  let block_hash := sha256_hex
    (toString index ++ previous_hash ++ merkle_root ++ toString nonce)
  { index := index, previous_hash := previous_hash, merkle_root := merkle_root,
    block_hash := block_hash, difficulty := difficulty, nonce := nonce,
    total_scientific_value := total_scientific_value, miner_id := miner_id,
    energy_consumed := energy_consumed, knowledge_created := knowledge_created }

/-- The block constructed by
`MiningOperationManager._create_block_with_discovery` once the latest block
has been fetched: `previous_hash` / `next_index` linkage plus the
`create_block` call. -/
def create_block_with_discovery (py_hash : String → ℤ)
    (sha256_hex : String → String) (latest_block : Option Block)
    (mathematical_work : MathematicalWork) (miner_id : String)
    (difficulty : ℤ) : Block :=
  let previous_hash := match latest_block with
    | some b => b.block_hash
    | none => zeros64
  let next_index := match latest_block with
    | some b => b.index + 1
    | none => 0
  create_block py_hash sha256_hex next_index previous_hash
    ("discovery_" ++ toString mathematical_work.id) difficulty
    mathematical_work.scientific_value miner_id
    (mathematical_work.energy_efficiency / 1000) 1

/-! ## Mining operation lifecycle (`mining_operations._execute_mining_operation`)

The manager drives one operation through
`computing → validating → completed/failed`, mutating the storage
collaborator at each transition.  We model the storage as an explicit state
(the operation row being executed plus the `mathematical_work` and `blocks`
tables) whose canonical CRUD updates follow `database.py`; each fallible
collaborator call (engine computation, the two inserts, the completion
update, the two event broadcasts, the latest-block fetch) is given an
injected `Except` outcome, `.error` standing for a raised exception that the
call site must handle.  Individual calls are atomic: a call that raises does
not mutate the state (spec §6), while calls that succeeded before the raise
keep their effects. -/

/-- The fields of the engine output that `_execute_mining_operation` indexes
directly (`computationResult` / `verificationData` payloads are opaque and
omitted; a missing key would raise `KeyError` at the indexing site, which the
fault model covers as a computation-step error). -/
structure MiningComputation where
  computationTime : ℚ
  energyConsumed : ℚ
  signature : String
  deriving Repr, DecidableEq

/-- The `current_result` JSON column: the `status` marker plus the optional
`error` message (other keys — `workType`, the result payload — are opaque). -/
structure CurrentResult where
  status : String
  error : Option String
  deriving Repr, DecidableEq

/-- A row of the `mining_operations` table (the fields the lifecycle
mutates: `progress`, `current_result`, and the `status` column, which starts
as `"active"`). -/
structure OperationRecord where
  progress : ℚ
  current_result : CurrentResult
  status : String
  deriving Repr, DecidableEq

/-- The storage state visible to one executing operation.  `blocks` is kept
newest-first, so `get_latest_block`'s `ORDER BY index DESC LIMIT 1` is the
head. -/
structure LifecycleState where
  operation : OperationRecord
  works : List MathematicalWork
  blocks : List Block
  deriving Repr, DecidableEq

/-- `DatabaseManager.update_mining_operation`: sets `progress` and
`current_result`, leaving the `status` column untouched. -/
def update_mining_operation (st : LifecycleState) (progress : ℚ)
    (current_result : CurrentResult) : LifecycleState :=
  { st with operation :=
      { st.operation with progress := progress, current_result := current_result } }

/-- `DatabaseManager.complete_mining_operation`: `SET status = 'completed'`. -/
def complete_mining_operation (st : LifecycleState) : LifecycleState :=
  { st with operation := { st.operation with status := "completed" } }

/-- `DatabaseManager.create_mathematical_work`: inserts a row and returns it
(`id` is the serial column). -/
def create_mathematical_work (st : LifecycleState) (work_type : String)
    (difficulty : ℤ) (computational_cost energy_efficiency scientific_value : ℚ)
    (worker_id signature : String) : MathematicalWork × LifecycleState :=
  let mw : MathematicalWork :=
    { id := (st.works.length : ℤ) + 1, work_type := work_type,
      difficulty := difficulty, computational_cost := computational_cost,
      energy_efficiency := energy_efficiency, scientific_value := scientific_value,
      worker_id := worker_id, signature := signature }
  (mw, { st with works := mw :: st.works })

/-- `DatabaseManager.get_latest_block`. -/
def get_latest_block (st : LifecycleState) : Option Block := st.blocks.head?

/-- `DatabaseManager.create_block`'s insert (row construction is
`create_block` above). -/
def insert_block (st : LifecycleState) (b : Block) : LifecycleState :=
  { st with blocks := b :: st.blocks }

/-- Injected outcomes for every fallible collaborator call made while one
operation executes: `.error e` means that call raised exception `e`. -/
structure FaultPlan where
  compute : Except String MiningComputation
  create_work_outcome : Except String Unit
  complete_outcome : Except String Unit
  get_latest_outcome : Except String Unit
  create_block_outcome : Except String Unit
  broadcast_block_outcome : Except String Unit
  broadcast_completed_outcome : Except String Unit
  py_hash : String → ℤ
  sha256_hex : String → String

/-- `MiningOperationManager._create_block_with_discovery` as a state
transformer: its body is wrapped in its own `try/except` that only logs, so
an exception at any point leaves the state as of the raise and returns
normally. -/
def create_block_with_discovery_op (plan : FaultPlan)
    (mathematical_work : MathematicalWork) (miner_id : String)
    (difficulty : ℤ) (st : LifecycleState) : LifecycleState :=
  match plan.get_latest_outcome with
  | .error _ => st
  | .ok _ =>
    let latest_block := get_latest_block st
    let block := create_block_with_discovery plan.py_hash plan.sha256_hex
      latest_block mathematical_work miner_id difficulty
    match plan.create_block_outcome with
    | .error _ => st
    | .ok _ =>
      let st' := insert_block st block
      match plan.broadcast_block_outcome with
      | .error _ => st'
      | .ok _ => st'

/-- The `except` handler of `_execute_mining_operation`:
`update_mining_operation(operation_id, 1.0, {"status": "failed", "error": str(e)})`. -/
def mark_failed (st : LifecycleState) (e : String) : LifecycleState :=
  update_mining_operation st 1 { status := "failed", error := some e }

/-- `MiningOperationManager._execute_mining_operation`.  The function is
total: the outer `except` catches every exception of the `try` body and ends
in the failure update, so no exception propagates to the manager or the
producer loop that submitted the operation. -/
def execute_mining_operation (plan : FaultPlan) (work_type : String)
    (difficulty : ℤ) (miner_id : String) (st : LifecycleState) : LifecycleState :=
  let st1 := update_mining_operation st (1 / 10)
    { status := "computing", error := none }
  match plan.compute with
  | .error e => mark_failed st1 e
  | .ok computation_result =>
    let scientific_value := calculate_scientific_value work_type difficulty
      computation_result.computationTime computation_result.energyConsumed
    let st2 := update_mining_operation st1 (8 / 10)
      { status := "validating", error := none }
    match plan.create_work_outcome with
    | .error e => mark_failed st2 e
    | .ok _ =>
      let mwst := create_mathematical_work st2 work_type difficulty
        scientific_value.computational_cost
        (computation_result.energyConsumed * 1000)
        scientific_value.total_value miner_id computation_result.signature
      let mathematical_work := mwst.1
      let st3 := mwst.2
      match plan.complete_outcome with
      | .error e => mark_failed st3 e
      | .ok _ =>
        let st4 := complete_mining_operation st3
        let st5 := create_block_with_discovery_op plan mathematical_work
          miner_id difficulty st4
        match plan.broadcast_completed_outcome with
        | .error e => mark_failed st5 e
        | .ok _ => st5

/-! ## Concrete lifecycle fixtures used to instantiate the fault model -/

/-- Fixture: every collaborator call succeeds except the block insert, which
raises. -/
def block_insert_fault_plan : FaultPlan :=
  { compute := .ok ⟨1, 1 / 10, "sig"⟩,
    create_work_outcome := .ok (), complete_outcome := .ok (),
    get_latest_outcome := .ok (),
    create_block_outcome := .error "block insert failed",
    broadcast_block_outcome := .ok (), broadcast_completed_outcome := .ok (),
    py_hash := fun _ => 0, sha256_hex := fun _ => "h" }

/-- Fixture: the engine computation raises; everything else succeeds. -/
def compute_fault_plan : FaultPlan :=
  { compute := .error "compute blew up",
    create_work_outcome := .ok (), complete_outcome := .ok (),
    get_latest_outcome := .ok (), create_block_outcome := .ok (),
    broadcast_block_outcome := .ok (), broadcast_completed_outcome := .ok (),
    py_hash := fun _ => 0, sha256_hex := fun _ => "h" }

/-- Fixture: a freshly created operation on an empty store. -/
def fresh_state : LifecycleState :=
  { operation := ⟨0, ⟨"initializing", none⟩, "active"⟩,
    works := [], blocks := [] }

/-! ## Helper lemmas -/

/-- Decimal rounding is monotone. -/
theorem round2_le_round2 {x y : ℚ} (h : x ≤ y) : round2 x ≤ round2 y := by
  unfold round2
  have hr : round (x * 100) ≤ round (y * 100) := by
    rw [round_eq, round_eq]
    exact Int.floor_le_floor (by linarith)
  have hq : ((round (x * 100) : ℤ) : ℚ) ≤ ((round (y * 100) : ℤ) : ℚ) := by
    exact_mod_cast hr
  linarith

/-- Decimal rounding fixes integers. -/
theorem round2_int (n : ℤ) : round2 (n : ℚ) = n := by
  unfold round2
  rw [show ((n : ℚ) * 100) = ((n * 100 : ℤ) : ℚ) by push_cast; ring, round_intCast]
  push_cast
  ring

/-! ## C2: router determinism -/

/-- C2: `determine_computation_mode(w, d)` returns `'real'` iff `w` has a
real-engine implementation and `d` is at most that type's tractability
threshold, otherwise `'simulation'`; in particular it returns `'real'` for
`('collatz_verification', 100)` and `'simulation'` for
`('collatz_verification', 101)`. -/
theorem determine_computation_mode_real_iff :
    (∀ (w : String) (d : ℤ), determine_computation_mode w d = "real" ∨
      determine_computation_mode w d = "simulation") ∧
    (∀ (w : String) (d : ℤ), determine_computation_mode w d = "real" ↔
      (w ∈ real_computation_types ∧ d ≤ tractability_thresholds w)) ∧
    determine_computation_mode "collatz_verification" 100 = "real" ∧
    determine_computation_mode "collatz_verification" 101 = "simulation" := by
  refine ⟨fun w d => ?_, fun w d => ?_, by decide, by decide⟩
  · unfold determine_computation_mode
    split_ifs <;> simp
  unfold determine_computation_mode
  by_cases hmem : w ∈ real_computation_types
  · rw [if_neg (not_not.mpr hmem)]
    by_cases hd : d > tractability_thresholds w
    · rw [if_pos hd]
      exact iff_of_false (by decide) (fun h => absurd h.2 (not_le.mpr hd))
    · rw [if_neg hd]
      exact iff_of_true rfl ⟨hmem, not_lt.mp hd⟩
  · rw [if_pos hmem]
    exact iff_of_false (by decide) (fun h => absurd h.1 hmem)

/-! ## C3: chain linkage of block creation -/

/-- C3: when no latest block exists, the created block has index 0 and a
previous hash of 64 zero characters; when a latest block exists, the created
block's index is that block's index + 1 and its previous hash is that
block's hash. -/
theorem create_block_with_discovery_linkage :
    ∀ (py_hash : String → ℤ) (sha256_hex : String → String)
      (mw : MathematicalWork) (miner_id : String) (difficulty : ℤ),
      ((create_block_with_discovery py_hash sha256_hex none mw miner_id
          difficulty).index = 0 ∧
       (create_block_with_discovery py_hash sha256_hex none mw miner_id
          difficulty).previous_hash = zeros64) ∧
      ∀ b : Block,
        (create_block_with_discovery py_hash sha256_hex (some b) mw miner_id
            difficulty).index = b.index + 1 ∧
        (create_block_with_discovery py_hash sha256_hex (some b) mw miner_id
            difficulty).previous_hash = b.block_hash :=
  fun _ _ _ _ _ => ⟨⟨rfl, rfl⟩, fun _ => ⟨rfl, rfl⟩⟩

/-! ## C4: Collatz trial termination -/

/-- The Collatz walk never leaves the step budget: starting from step count
`s ≤ 10000`, the loop exits with a step count of at most 10000. -/
theorem collatz_loop_steps_le :
    ∀ (fuel current steps max_in_sequence : ℕ), 10000 - steps ≤ fuel →
      steps ≤ 10000 →
      (collatz_loop current steps max_in_sequence).2.1 ≤ 10000 := by
  intro fuel
  induction fuel with
  | zero =>
    intro c s m hf hs
    rw [collatz_loop]
    split
    · next h => omega
    · exact hs
  | succ n ih =>
    intro c s m hf hs
    rw [collatz_loop]
    split
    · next h => exact ih _ _ _ (by omega) (by omega)
    · exact hs

/-- C4: every per-trial Collatz walk terminates with a step count of at most
10000 for any starting value, and the trial is recorded as converged exactly
when the walk actually reached 1 — a trial that hits the cap away from 1 is
recorded with `converged = false` rather than looping unboundedly. -/
theorem collatz_trial_terminates :
    ∀ start : ℕ, (collatz_trial start).steps ≤ 10000 ∧
      ((collatz_trial start).converged = true ↔
        (collatz_loop start 0 start).1 = 1) := by
  intro start
  refine ⟨collatz_loop_steps_le 10000 start 0 start (by omega) (by omega), ?_⟩
  unfold collatz_trial
  simp [beq_iff_eq]

/-! ## C1: valuation totality and bounds -/

/-- The clamp-then-round tail of `calculate_scientific_value` stays in
`[1200, 3500]` whatever the pre-clamp sum is. -/
theorem clamp_round_bounds (x : ℚ) :
    1200 ≤ round2 (max 1200 (min x 3500)) ∧
    round2 (max 1200 (min x 3500)) ≤ 3500 := by
  have h1 : (1200 : ℚ) ≤ max 1200 (min x 3500) := le_max_left _ _
  have h2 : max 1200 (min x 3500) ≤ 3500 := max_le (by norm_num) (min_le_right _ _)
  have e1 : round2 (1200 : ℚ) = 1200 := by
    have h := round2_int 1200; push_cast at h; exact h
  have e2 : round2 (3500 : ℚ) = 3500 := by
    have h := round2_int 3500; push_cast at h; exact h
  constructor
  · calc (1200 : ℚ) = round2 1200 := e1.symm
      _ ≤ round2 (max 1200 (min x 3500)) := round2_le_round2 h1
  · calc round2 (max 1200 (min x 3500)) ≤ round2 3500 := round2_le_round2 h2
      _ = 3500 := e2

/-- C1: for every work type, difficulty, and nonnegative computation time
and energy, `calculate_scientific_value` returns a valuation (the embedded
function is total — the Python `try` body consists only of total operations,
and the `except` arm returns the 1200 fallback rather than re-raising) whose
`total_value` satisfies `1200 ≤ total_value ≤ 3500`. -/
theorem calculate_scientific_value_total_value_bounds (w : String) (d : ℤ)
    (t e : ℚ) (ht : 0 ≤ t) (he : 0 ≤ e) :
    1200 ≤ (calculate_scientific_value w d t e).total_value ∧
    (calculate_scientific_value w d t e).total_value ≤ 3500 :=
  clamp_round_bounds _

/-- Witness for C1 at `('riemann_zero', 50, t = 10, e = 1/2)`. -/
theorem calculate_scientific_value_total_value_bounds_witness :
    1200 ≤ (calculate_scientific_value "riemann_zero" 50 10 (1 / 2)).total_value ∧
    (calculate_scientific_value "riemann_zero" 50 10 (1 / 2)).total_value ≤ 3500 :=
  calculate_scientific_value_total_value_bounds "riemann_zero" 50 10 (1 / 2)
    (by norm_num) (by norm_num)

/-! ## C8: computational cost cap -/

/-- C8: for nonnegative time and energy the computational cost equals
`min((t/3600)·0.10 + e·0.15, 2.0)·100` — the post-scaling cap the code
applies coincides with capping before scaling — and never exceeds 200. -/
theorem calculate_computational_cost_cap (t e : ℚ) (ht : 0 ≤ t) (he : 0 ≤ e) :
    calculate_computational_cost t e =
      min ((t / 3600) * (1 / 10) + e * (15 / 100)) 2 * 100 ∧
    calculate_computational_cost t e ≤ 200 := by
  unfold calculate_computational_cost
  constructor
  · rw [min_mul_of_nonneg _ _ (by norm_num : (0 : ℚ) ≤ 100)]
    norm_num
  · exact min_le_right _ _

/-- Witness for C8 at `t = 7200, e = 4`. -/
theorem calculate_computational_cost_cap_witness :
    calculate_computational_cost 7200 4 =
      min ((7200 / 3600) * (1 / 10) + 4 * (15 / 100)) 2 * 100 ∧
    calculate_computational_cost 7200 4 ≤ 200 :=
  calculate_computational_cost_cap 7200 4 (by norm_num) (by norm_num)

/-! ## C10: implicit tightness of the valuation bounds -/

/-- `total_value` unfolded: clamp-then-round of
`base + impact·multiplier + cost`. -/
theorem total_value_eq (w : String) (d : ℤ) (t e : ℚ) :
    (calculate_scientific_value w d t e).total_value =
      round2 (max 1200 (min
        (base_research_values w +
          research_impact_factors w *
            min (1 + ((d : ℚ) / 1000) * (1 / 2)) max_difficulty_multiplier +
          calculate_computational_cost t e) 3500)) := rfl

/-- Every base research value (including the 600 default) is at most 1200. -/
theorem base_research_values_le (w : String) : base_research_values w ≤ 1200 := by
  unfold base_research_values
  split_ifs <;> norm_num

/-- Every research impact factor (including the 150 default) lies in
`[0, 300]`. -/
theorem research_impact_factors_mem (w : String) :
    0 ≤ research_impact_factors w ∧ research_impact_factors w ≤ 300 := by
  unfold research_impact_factors
  split_ifs <;> norm_num

/-- C10 (implicit): with every base value at most 1200, every impact term at
most `300 × 1.5`, and the computational cost capped at 200, the pre-clamp
sum never exceeds 1850, so for difficulty in 1..1000 and nonnegative time
and energy the returned `total_value` is at most 1850 — the documented 3500
upper clamp is never attained; and for `goldbach_verification`, whose
maximal pre-clamp sum `500 + 100·1.5 + 200 = 850` is below the 1200 floor,
`total_value` is always exactly 1200. -/
theorem total_value_le_1850_and_goldbach_floor (w : String) (d : ℤ) (t e : ℚ)
    (hd1 : 1 ≤ d) (hd2 : d ≤ 1000) (ht : 0 ≤ t) (he : 0 ≤ e) :
    (calculate_scientific_value w d t e).total_value ≤ 1850 ∧
    (calculate_scientific_value "goldbach_verification" d t e).total_value = 1200 := by
  have hd1q : (1 : ℚ) ≤ (d : ℚ) := by exact_mod_cast hd1
  have hmult_le : min (1 + ((d : ℚ) / 1000) * (1 / 2)) max_difficulty_multiplier
      ≤ 3 / 2 := by
    unfold max_difficulty_multiplier
    exact min_le_right _ _
  have hmult_nonneg :
      0 ≤ min (1 + ((d : ℚ) / 1000) * (1 / 2)) max_difficulty_multiplier := by
    refine le_min (by linarith) (by norm_num [max_difficulty_multiplier])
  have hcost_le : calculate_computational_cost t e ≤ 200 := min_le_right _ _
  have hcost_nonneg : 0 ≤ calculate_computational_cost t e := by
    refine le_min ?_ (by norm_num)
    have h1 : 0 ≤ (t / 3600) * (1 / 10) + e * (15 / 100) :=
      add_nonneg (mul_nonneg (div_nonneg ht (by norm_num)) (by norm_num))
        (mul_nonneg he (by norm_num))
    exact mul_nonneg h1 (by norm_num)
  constructor
  · rw [total_value_eq]
    have himp := research_impact_factors_mem w
    have hprod : research_impact_factors w *
        min (1 + ((d : ℚ) / 1000) * (1 / 2)) max_difficulty_multiplier ≤ 450 := by
      calc research_impact_factors w *
            min (1 + ((d : ℚ) / 1000) * (1 / 2)) max_difficulty_multiplier
          ≤ 300 * (3 / 2) :=
            mul_le_mul himp.2 hmult_le hmult_nonneg (by norm_num)
        _ = 450 := by norm_num
    have hb := base_research_values_le w
    have hsum : base_research_values w +
        research_impact_factors w *
          min (1 + ((d : ℚ) / 1000) * (1 / 2)) max_difficulty_multiplier +
        calculate_computational_cost t e ≤ 1850 := by linarith
    have hclamp : max 1200 (min (base_research_values w +
        research_impact_factors w *
          min (1 + ((d : ℚ) / 1000) * (1 / 2)) max_difficulty_multiplier +
        calculate_computational_cost t e) 3500) ≤ 1850 :=
      max_le (by norm_num) ((min_le_left _ _).trans hsum)
    calc round2 _ ≤ round2 (1850 : ℚ) := round2_le_round2 hclamp
      _ = 1850 := by have h := round2_int 1850; push_cast at h; exact h
  · rw [total_value_eq]
    have hb : base_research_values "goldbach_verification" = 500 := by decide
    have hi : research_impact_factors "goldbach_verification" = 100 := by decide
    rw [hb, hi]
    have hsum : (500 : ℚ) +
        100 * min (1 + ((d : ℚ) / 1000) * (1 / 2)) max_difficulty_multiplier +
        calculate_computational_cost t e ≤ 1200 := by linarith
    have hmin : min ((500 : ℚ) +
        100 * min (1 + ((d : ℚ) / 1000) * (1 / 2)) max_difficulty_multiplier +
        calculate_computational_cost t e) 3500 ≤ 1200 :=
      (min_le_left _ _).trans hsum
    rw [max_eq_left hmin]
    have h := round2_int 1200; push_cast at h; exact h

/-- Witness for C10 at `('yang_mills', 1000, t = 36000, e = 100)`. -/
theorem total_value_le_1850_and_goldbach_floor_witness :
    (calculate_scientific_value "yang_mills" 1000 36000 100).total_value ≤ 1850 ∧
    (calculate_scientific_value "goldbach_verification" 1000 36000 100).total_value
      = 1200 :=
  total_value_le_1850_and_goldbach_floor "yang_mills" 1000 36000 100
    (by norm_num) (by norm_num) (by norm_num) (by norm_num)

/-! ## C5: single fallback-to-simulation retry -/

/-- C5: if the router chose real mode and the real-mode computation raises,
the exception is caught, the work is recomputed once with the simulation
engine, and the returned envelope is that simulation result tagged
`computationMode = 'simulation_fallback'` with the error message recorded
(and no valuation or hybrid metadata attached). -/
theorem hybrid_simulation_fallback
    (real_engine simulation_engine : String → ℤ → Except String EngineOutput)
    (w : String) (d : ℤ) (e : String) (r : EngineOutput)
    (hmode : determine_computation_mode w d = "real")
    (hreal : real_engine w d = .error e)
    (hsim : simulation_engine w d = .ok r) :
    compute_mathematical_work_hybrid real_engine simulation_engine w d =
      .ok { result := r, computationMode := "simulation_fallback",
            verified := none, scientificValue := none, error := some e,
            hybridSystem := none } := by
  simp [compute_mathematical_work_hybrid, hmode, hreal, hsim]

/-- Witness for C5: a raising real engine at `('collatz_verification', 50)`
falls back to the simulation engine's result. -/
theorem hybrid_simulation_fallback_witness :
    compute_mathematical_work_hybrid
      (fun _ _ => .error "engine failure")
      (fun _ _ => .ok ⟨some 1, some (1 / 10), "sig"⟩)
      "collatz_verification" 50 =
      .ok { result := ⟨some 1, some (1 / 10), "sig"⟩,
            computationMode := "simulation_fallback", verified := none,
            scientificValue := none, error := some "engine failure",
            hybridSystem := none } :=
  hybrid_simulation_fallback _ _ "collatz_verification" 50 "engine failure" _
    (by decide) rfl rfl

/-! ## C9: producer backoff -/

/-- C9: below the max-consecutive-errors threshold (5) the producer sleeps
`min(base · 2^k, cap)` for updated error count `k` — a delay that is
monotonically non-decreasing in `k` and never exceeds the cap (300 s general,
400 s specialized) — and on reaching the threshold it sleeps the fixed reset
interval (60 s general, 90 s specialized) and zeroes the counter, continuing
the loop. -/
theorem producer_backoff_properties :
    (∀ j k : ℕ, j ≤ k → autonomous_miner_backoff j ≤ autonomous_miner_backoff k) ∧
    (∀ k : ℕ, autonomous_miner_backoff k ≤ 300) ∧
    (∀ j k : ℕ, j ≤ k → specialized_miner_backoff j ≤ specialized_miner_backoff k) ∧
    (∀ k : ℕ, specialized_miner_backoff k ≤ 400) ∧
    (∀ c : ℕ, c + 1 < 5 →
      autonomous_miner_error_step c = (autonomous_miner_backoff (c + 1), c + 1) ∧
      specialized_miner_error_step c = (specialized_miner_backoff (c + 1), c + 1)) ∧
    (∀ c : ℕ, 5 ≤ c + 1 →
      autonomous_miner_error_step c = (60, 0) ∧
      specialized_miner_error_step c = (90, 0)) := by
  refine ⟨?_, ?_, ?_, ?_, ?_, ?_⟩
  · intro j k h
    unfold autonomous_miner_backoff
    exact min_le_min
      (Nat.mul_le_mul_left _ (Nat.pow_le_pow_right (by norm_num) h)) le_rfl
  · intro k
    exact min_le_right _ _
  · intro j k h
    unfold specialized_miner_backoff
    exact min_le_min
      (Nat.mul_le_mul_left _ (Nat.pow_le_pow_right (by norm_num) h)) le_rfl
  · intro k
    exact min_le_right _ _
  · intro c h
    constructor
    · unfold autonomous_miner_error_step
      rw [if_neg (by omega)]
    · unfold specialized_miner_error_step
      rw [if_neg (by omega)]
  · intro c h
    constructor
    · unfold autonomous_miner_error_step
      rw [if_pos h]
    · unfold specialized_miner_error_step
      rw [if_pos h]

/-- Witness for C9 at error counts 2 ≤ 4 (delays) and 4 (threshold step). -/
theorem producer_backoff_properties_witness :
    autonomous_miner_backoff 2 ≤ autonomous_miner_backoff 4 ∧
    autonomous_miner_error_step 4 = (60, 0) ∧
    specialized_miner_error_step 1 = (specialized_miner_backoff 2, 2) :=
  ⟨producer_backoff_properties.1 2 4 (by norm_num),
   (producer_backoff_properties.2.2.2.2.2 4 (by norm_num)).1,
   (producer_backoff_properties.2.2.2.2.1 1 (by norm_num)).2⟩

/-! ## C7: verification scoring is symmetric and bounded -/

/-- The relative-difference score ingredient lies in `[0, 1]` for
nonnegative inputs with a positive maximum. -/
theorem abs_sub_div_max_mem {a b : ℚ} (ha : 0 ≤ a) (hb : 0 ≤ b)
    (h : 0 < max a b) : 0 ≤ |a - b| / max a b ∧ |a - b| / max a b ≤ 1 := by
  constructor
  · exact div_nonneg (abs_nonneg _) h.le
  · rw [div_le_one h]
    rcases le_total a b with hab | hab
    · rw [abs_of_nonpos (by linarith)]
      have := le_max_right a b
      linarith
    · rw [abs_of_nonneg (by linarith)]
      have := le_max_left a b
      linarith

/-- The inner `if max > 0` comparison pattern is insensitive to swapping its
two arguments. -/
theorem max_score_comm (a b : ℚ) :
    (if max a b > 0 then 1 - |a - b| / max a b else 1) =
    (if max b a > 0 then 1 - |b - a| / max b a else 1) := by
  rw [max_comm b a, abs_sub_comm b a]

/-- C7: for two engine-shaped results of the same work type (success and
convergence rates in `[0, 1]`, nonnegative gap and golden-ratio metrics,
positive computation time and energy), both `_compare_real_results` and
`_compare_statistical_results` return a score in `[0, 1]`, and swapping the
two arguments leaves the score unchanged. -/
theorem compare_results_symmetric_bounded (r1 r2 : ResultEnvelope)
    (hw : r1.workType = r2.workType)
    (hs1 : 0 ≤ r1.successRate) (hs1' : r1.successRate ≤ 1)
    (hs2 : 0 ≤ r2.successRate) (hs2' : r2.successRate ≤ 1)
    (hg1 : 0 ≤ r1.averageGap) (hg2 : 0 ≤ r2.averageGap)
    (hf1 : 0 ≤ r1.goldenRatioApproximation)
    (hf2 : 0 ≤ r2.goldenRatioApproximation)
    (hc1 : 0 ≤ r1.convergenceRate) (hc1' : r1.convergenceRate ≤ 1)
    (hc2 : 0 ≤ r2.convergenceRate) (hc2' : r2.convergenceRate ≤ 1)
    (ht1 : 0 < r1.computationTime) (ht2 : 0 < r2.computationTime)
    (he1 : 0 < r1.energyConsumed) (he2 : 0 < r2.energyConsumed) :
    (0 ≤ compare_real_results r1 r2 ∧ compare_real_results r1 r2 ≤ 1 ∧
      compare_real_results r1 r2 = compare_real_results r2 r1) ∧
    (0 ≤ compare_statistical_results r1 r2 ∧
      compare_statistical_results r1 r2 ≤ 1 ∧
      compare_statistical_results r1 r2 = compare_statistical_results r2 r1) := by
  have hsabs : |r1.successRate - r2.successRate| ≤ 1 :=
    abs_le.mpr ⟨by linarith, by linarith⟩
  have hcabs : |r1.convergenceRate - r2.convergenceRate| ≤ 1 :=
    abs_le.mpr ⟨by linarith, by linarith⟩
  refine ⟨⟨?_, ?_, ?_⟩, ?_, ?_, ?_⟩
  · unfold compare_real_results
    split_ifs with h1 h2 h3 h4 h5 h6
    · linarith
    · have := abs_sub_div_max_mem hg1 hg2 h3
      linarith
    · norm_num
    · have := abs_sub_div_max_mem hf1 hf2 h5
      linarith
    · norm_num
    · linarith
    · norm_num
  · unfold compare_real_results
    split_ifs with h1 h2 h3 h4 h5 h6
    · have := abs_nonneg (r1.successRate - r2.successRate)
      linarith
    · have := abs_sub_div_max_mem hg1 hg2 h3
      linarith
    · norm_num
    · have := abs_sub_div_max_mem hf1 hf2 h5
      linarith
    · norm_num
    · have := abs_nonneg (r1.convergenceRate - r2.convergenceRate)
      linarith
    · norm_num
  · unfold compare_real_results
    rw [hw]
    by_cases h1 : r2.workType = "goldbach_verification"
    · rw [if_pos h1, if_pos h1, abs_sub_comm]
    · rw [if_neg h1, if_neg h1]
      by_cases h2 : r2.workType = "prime_gap_analysis"
      · rw [if_pos h2, if_pos h2]
        exact max_score_comm _ _
      · rw [if_neg h2, if_neg h2]
        by_cases h3 : r2.workType = "fibonacci_patterns"
        · rw [if_pos h3, if_pos h3]
          exact max_score_comm _ _
        · rw [if_neg h3, if_neg h3]
          by_cases h4 : r2.workType = "collatz_verification"
          · rw [if_pos h4, if_pos h4, abs_sub_comm]
          · rw [if_neg h4, if_neg h4]
  · simp only [compare_statistical_results]
    have hmt : 0 < max r1.computationTime r2.computationTime :=
      lt_max_of_lt_left ht1
    have hme : 0 < max r1.energyConsumed r2.energyConsumed :=
      lt_max_of_lt_left he1
    have h1 : min (|r1.computationTime - r2.computationTime| /
        max r1.computationTime r2.computationTime) 1 ≤ 1 := min_le_right _ _
    have h2 : min (|r1.energyConsumed - r2.energyConsumed| /
        max r1.energyConsumed r2.energyConsumed) 1 ≤ 1 := min_le_right _ _
    linarith
  · simp only [compare_statistical_results]
    have hmt : 0 < max r1.computationTime r2.computationTime :=
      lt_max_of_lt_left ht1
    have hme : 0 < max r1.energyConsumed r2.energyConsumed :=
      lt_max_of_lt_left he1
    have h1 : 0 ≤ min (|r1.computationTime - r2.computationTime| /
        max r1.computationTime r2.computationTime) 1 :=
      le_min (div_nonneg (abs_nonneg _) hmt.le) zero_le_one
    have h2 : 0 ≤ min (|r1.energyConsumed - r2.energyConsumed| /
        max r1.energyConsumed r2.energyConsumed) 1 :=
      le_min (div_nonneg (abs_nonneg _) hme.le) zero_le_one
    linarith
  · simp only [compare_statistical_results]
    rw [abs_sub_comm r1.computationTime r2.computationTime,
      max_comm r1.computationTime r2.computationTime,
      abs_sub_comm r1.energyConsumed r2.energyConsumed,
      max_comm r1.energyConsumed r2.energyConsumed]

/-- Witness for C7 on two concrete `goldbach_verification` results. -/
theorem compare_results_symmetric_bounded_witness :
    (0 ≤ compare_real_results
        ⟨"goldbach_verification", 9 / 10, 5, 8 / 5, 1, 2, 1 / 10⟩
        ⟨"goldbach_verification", 1, 3, 8 / 5, 4 / 5, 3, 1 / 5⟩ ∧
      compare_real_results
        ⟨"goldbach_verification", 9 / 10, 5, 8 / 5, 1, 2, 1 / 10⟩
        ⟨"goldbach_verification", 1, 3, 8 / 5, 4 / 5, 3, 1 / 5⟩ ≤ 1 ∧
      compare_real_results
        ⟨"goldbach_verification", 9 / 10, 5, 8 / 5, 1, 2, 1 / 10⟩
        ⟨"goldbach_verification", 1, 3, 8 / 5, 4 / 5, 3, 1 / 5⟩ =
      compare_real_results
        ⟨"goldbach_verification", 1, 3, 8 / 5, 4 / 5, 3, 1 / 5⟩
        ⟨"goldbach_verification", 9 / 10, 5, 8 / 5, 1, 2, 1 / 10⟩) ∧
    (0 ≤ compare_statistical_results
        ⟨"goldbach_verification", 9 / 10, 5, 8 / 5, 1, 2, 1 / 10⟩
        ⟨"goldbach_verification", 1, 3, 8 / 5, 4 / 5, 3, 1 / 5⟩ ∧
      compare_statistical_results
        ⟨"goldbach_verification", 9 / 10, 5, 8 / 5, 1, 2, 1 / 10⟩
        ⟨"goldbach_verification", 1, 3, 8 / 5, 4 / 5, 3, 1 / 5⟩ ≤ 1 ∧
      compare_statistical_results
        ⟨"goldbach_verification", 9 / 10, 5, 8 / 5, 1, 2, 1 / 10⟩
        ⟨"goldbach_verification", 1, 3, 8 / 5, 4 / 5, 3, 1 / 5⟩ =
      compare_statistical_results
        ⟨"goldbach_verification", 1, 3, 8 / 5, 4 / 5, 3, 1 / 5⟩
        ⟨"goldbach_verification", 9 / 10, 5, 8 / 5, 1, 2, 1 / 10⟩) :=
  compare_results_symmetric_bounded _ _ rfl (by norm_num) (by norm_num)
    (by norm_num) (by norm_num) (by norm_num) (by norm_num) (by norm_num)
    (by norm_num) (by norm_num) (by norm_num) (by norm_num) (by norm_num)
    (by norm_num) (by norm_num) (by norm_num) (by norm_num)

/-! ## C6: lifecycle failure marking

`_execute_mining_operation`'s outer `except` catches every exception of its
`try` body and records the failure, so nothing propagates to the manager or
the producer loop (the embedded function is total).  However,
`_create_block_with_discovery` has its own log-only `except`, so an
exception raised while creating the block does *not* reach the outer
handler: the operation stays `completed` at progress 0.8 with no failure
marking — refuting the claim's inclusion of block creation among the
failure triggers. -/

/-- C6 counterexample: with every collaborator call succeeding except the
block insert (which raises), the finished operation is *not* marked failed —
its `current_result.status` is still `"validating"`, progress is 0.8, and
the `status` column says `"completed"`. -/
theorem execute_mining_operation_block_fault_not_failed :
    block_insert_fault_plan.create_block_outcome = .error "block insert failed" ∧
    (execute_mining_operation block_insert_fault_plan "goldbach_verification"
        10 "miner_1" fresh_state).operation.current_result.status = "validating" ∧
    (execute_mining_operation block_insert_fault_plan "goldbach_verification"
        10 "miner_1" fresh_state).operation.progress = 8 / 10 ∧
    (execute_mining_operation block_insert_fault_plan "goldbach_verification"
        10 "miner_1" fresh_state).operation.status = "completed" :=
  ⟨rfl, rfl, rfl, rfl⟩

/-- C6 (amended): an exception raised during the engine computation, the
discovery insert, the completion update, or the final completion broadcast
marks the operation failed — progress 1.0 and `current_result`
`{status: "failed", error: e}` — and never propagates (the embedding of
`_execute_mining_operation` is a total function); an exception during block
creation (latest-block fetch or block insert) is instead swallowed by
`_create_block_with_discovery`'s own handler, leaving the operation
completed at progress 0.8 with `current_result.status = "validating"`. -/
theorem execute_mining_operation_failure_marking (plan : FaultPlan)
    (w : String) (d : ℤ) (miner : String) (st : LifecycleState) (e : String) :
    (plan.compute = .error e →
      (execute_mining_operation plan w d miner st).operation.progress = 1 ∧
      (execute_mining_operation plan w d miner st).operation.current_result =
        ⟨"failed", some e⟩) ∧
    (∀ c : MiningComputation, plan.compute = .ok c →
      plan.create_work_outcome = .error e →
      (execute_mining_operation plan w d miner st).operation.progress = 1 ∧
      (execute_mining_operation plan w d miner st).operation.current_result =
        ⟨"failed", some e⟩) ∧
    (∀ c : MiningComputation, plan.compute = .ok c →
      plan.create_work_outcome = .ok () → plan.complete_outcome = .error e →
      (execute_mining_operation plan w d miner st).operation.progress = 1 ∧
      (execute_mining_operation plan w d miner st).operation.current_result =
        ⟨"failed", some e⟩) ∧
    (∀ c : MiningComputation, plan.compute = .ok c →
      plan.create_work_outcome = .ok () → plan.complete_outcome = .ok () →
      plan.broadcast_completed_outcome = .error e →
      (execute_mining_operation plan w d miner st).operation.progress = 1 ∧
      (execute_mining_operation plan w d miner st).operation.current_result =
        ⟨"failed", some e⟩) ∧
    (∀ c : MiningComputation, plan.compute = .ok c →
      plan.create_work_outcome = .ok () → plan.complete_outcome = .ok () →
      plan.create_block_outcome = .error e →
      plan.broadcast_completed_outcome = .ok () →
      (execute_mining_operation plan w d miner st).operation.status =
        "completed" ∧
      (execute_mining_operation plan w d miner st).operation.current_result.status
        = "validating" ∧
      (execute_mining_operation plan w d miner st).operation.progress = 8 / 10) := by
  refine ⟨?_, ?_, ?_, ?_, ?_⟩
  · intro h
    simp [execute_mining_operation, h, mark_failed, update_mining_operation]
  · intro c hc h
    simp [execute_mining_operation, hc, h, mark_failed, update_mining_operation]
  · intro c hc hw hcm
    simp [execute_mining_operation, hc, hw, hcm, mark_failed,
      update_mining_operation, create_mathematical_work]
  · intro c hc hw hcm hb
    simp [execute_mining_operation, hc, hw, hcm, hb, mark_failed,
      update_mining_operation, create_mathematical_work,
      complete_mining_operation, create_block_with_discovery_op,
      get_latest_block, insert_block]
  · intro c hc hw hcm hblk hbc
    rcases hgl : plan.get_latest_outcome with eg | u <;>
      simp [execute_mining_operation, hc, hw, hcm, hblk, hbc, hgl, mark_failed,
        update_mining_operation, create_mathematical_work,
        complete_mining_operation, create_block_with_discovery_op,
        get_latest_block, insert_block]

/-- Witness for the amended C6: a raising engine computation marks the
operation failed with the message recorded. -/
theorem execute_mining_operation_failure_marking_witness :
    (execute_mining_operation compute_fault_plan "riemann_zero" 5 "miner_2"
        fresh_state).operation.progress = 1 ∧
    (execute_mining_operation compute_fault_plan "riemann_zero" 5 "miner_2"
        fresh_state).operation.current_result =
      ⟨"failed", some "compute blew up"⟩ :=
  (execute_mining_operation_failure_marking compute_fault_plan "riemann_zero"
    5 "miner_2" fresh_state "compute blew up").1 rfl

end ProductiveMining
